import Mathlib

/-!
Verification of the coordination layer of an embedded firmware
(status-indicator state machine, outcome guard, button debouncer,
connection supervisor, outbound message queue).  Each definition below is a
shallow embedding of one function or data structure of the source; theorems
settle the specification claims against these definitions.
-/

set_option maxRecDepth 4000

/-! ## Status indicator (led.rs) -/

/-- The `LedState` enum of led.rs (variants in source order). -/
inductive LedState
  | PresenceBlink
  | PatientBlink
  | RapidBlink
  | Success
  | Failure
  | ViolentBlink
deriving DecidableEq, Repr

/-- The pattern table of `led_task` (led.rs lines 53-62):
`(on_duration, off_duration, is_persistent, hold_then_revert)`, durations in
milliseconds (`Duration::from_secs(3)` = 3000 ms). -/
def patternOf : LedState → Nat × Nat × Bool × Option Nat
  | .PresenceBlink => (30, 3000, true, none)
  | .PatientBlink  => (500, 1000, true, none)
  | .RapidBlink    => (100, 100, false, none)
  | .ViolentBlink  => (30, 70, false, none)
  | .Success       => (3000, 0, false, some 3000)
  | .Failure       => (30, 70, false, some 3000)

/-- `is_persistent` column of the pattern table. -/
def isPersistentLed (st : LedState) : Bool := (patternOf st).2.2.1

/-- The mutable locals of `led_task`: `current_state` and `persistent_state`
(led.rs lines 45-46, both initialized to `PatientBlink`). -/
structure LedTaskState where
  current : LedState
  persistent : LedState
deriving DecidableEq, Repr

/-- One rendered blink phase: LED level, scheduled duration, the state whose
pattern produced the phase, and whether the phase's sleep was cut short by an
incoming signal (the `select` taking the `Second` branch). -/
structure Phase where
  level : Bool
  dur : Nat
  src : LedState
  cut : Bool
deriving DecidableEq, Repr

/-- Phases rendered by `n` repetitions of the hold-loop body
(led.rs lines 83-89): the whole two-entry pattern, never racing the signal. -/
def holdPhases (src : LedState) (onD offD : Nat) : Nat → List Phase
  | 0 => []
  | n + 1 => ⟨true, onD, src, false⟩ :: ⟨false, offD, src, false⟩ :: holdPhases src onD offD n

/-- Number of hold-loop iterations: the `while delay_start.elapsed() < hold`
loop runs whole patterns until the elapsed time reaches `hold`, i.e. the least
`n` with `n * patLen ≥ hold` (ceiling division; each pattern pass takes
`on_duration + off_duration`). -/
def holdReps (patLen hold : Nat) : Nat :=
  if patLen = 0 then 0 else (hold + patLen - 1) / patLen

/-- One iteration of the `led_task` outer loop (led.rs lines 48-112).
The environment `sig` says, for each of the two phases of the non-hold path,
whether `LED_STATE.wait()` resolves before the phase timer and with which
value.  Returns the new task state, the phases rendered this iteration, and
the list of signal values consumed.  The hold branch (lines 79-95) never
touches the signal; the non-hold branch (lines 97-111) updates
`current_state` when the signal wins the race but still continues the `for`
loop over the already-selected pattern. -/
def ledIterate (s : LedTaskState) (sig : Option LedState × Option LedState) :
    LedTaskState × List Phase × List LedState :=
  let onD := (patternOf s.current).1
  let offD := (patternOf s.current).2.1
  let pers := if isPersistentLed s.current then s.current else s.persistent
  match (patternOf s.current).2.2.2 with
  | some hold =>
      (⟨pers, pers⟩, holdPhases s.current onD offD (holdReps (onD + offD) hold), [])
  | none =>
      let c1 := sig.1.getD s.current
      let c2 := sig.2.getD c1
      (⟨c2, pers⟩,
       [⟨true, onD, s.current, sig.1.isSome⟩, ⟨false, offD, s.current, sig.2.isSome⟩],
       sig.1.toList ++ sig.2.toList)

/-- Run `led_task` for a list of per-iteration signal environments. -/
def ledRun (s : LedTaskState) : List (Option LedState × Option LedState) → LedTaskState
  | [] => s
  | sig :: rest => ledRun (ledIterate s sig).1 rest

/-- The initial `led_task` state (led.rs lines 45-46). -/
def ledInit : LedTaskState := ⟨.PatientBlink, .PatientBlink⟩

/-! ## Outcome guard (led_op.rs) -/

/-- LED states signalled by `Status::new()`: `RapidBlink` (led_op.rs line 11). -/
def statusNewEmits : List LedState := [.RapidBlink]

/-- LED states signalled by `Status::set_result(state)`: just `state`; the
`core::mem::forget(self)` prevents the `Drop` impl from also firing
(led_op.rs lines 15-21). -/
def statusSetResultEmits (state : LedState) : List LedState := [state]

/-- LED states signalled by `Drop for Status`: `Failure`
(led_op.rs lines 36-41). -/
def statusDropEmits : List LedState := [.Failure]

/-- The three possible lifecycles of a `Status` guard.  Rust's move semantics
make `success(self)` and `failure(self)` consume the guard (so neither can be
called twice nor after the other), `mem::forget` disarms the destructor after
either, and `Drop` runs exactly when the guard goes out of scope unconsumed:
every guard ends in exactly one of these three ways. -/
inductive GuardEnding
  | success
  | failure
  | abandoned
deriving DecidableEq, Repr

/-- The terminal LED state a given guard ending signals: `success()` signals
`Success`; `failure()` and the destructor both signal `Failure`. -/
def terminalOf : GuardEnding → LedState
  | .success => .Success
  | .failure => .Failure
  | .abandoned => .Failure

/-- Full trace of LED states signalled over the lifetime of one guard. -/
def guardTrace : GuardEnding → List LedState
  | .success => statusNewEmits ++ statusSetResultEmits .Success
  | .failure => statusNewEmits ++ statusSetResultEmits .Failure
  | .abandoned => statusNewEmits ++ statusDropEmits

/-- Whether a LED state is a terminal outcome report. -/
def isTerminalReport : LedState → Bool
  | .Success => true
  | .Failure => true
  | _ => false

/-! ## Button debouncer (button.rs) -/

/-- The debounce settle interval of `task_button_clicks`:
`Timer::after_millis(20)` (button.rs line 35). -/
def settleMs : Nat := 20

/-- Control state of `task_button_clicks`, sampling the raw input once per
millisecond tick.  `armed prev` is `wait_for_falling_edge` with `prev` the
last seen level; `settling k` is inside the 20 ms settle delay with `k` ticks
left before the `is_low()` re-sample; `waitHigh` is `wait_for_high` after an
event was sent.  Levels: `true` = high = released, `false` = low = pressed. -/
inductive DebState
  | armed (prev : Bool)
  | settling (k : Nat)
  | waitHigh
deriving DecidableEq, Repr

/-- One tick of the debouncer: consume the current input level, return the
next state and whether a click event was emitted (`try_send` at button.rs
line 39) on this tick. -/
def debStep : DebState → Bool → DebState × Bool
  | .armed prev, lvl =>
      if prev && !lvl then (.settling (settleMs - 1), false) else (.armed lvl, false)
  | .settling (k + 1), _ => (.settling k, false)
  | .settling 0, lvl => if !lvl then (.waitHigh, true) else (.armed lvl, false)
  | .waitHigh, lvl => if lvl then (.armed lvl, false) else (.waitHigh, false)

/-- Run the debouncer over a trace of input levels; returns the final state
and the number of click events emitted. -/
def debRun : DebState → List Bool → DebState × Nat
  | s, [] => (s, 0)
  | s, lvl :: rest =>
      let st := debStep s lvl
      let r := debRun st.1 rest
      (r.1, (if st.2 then 1 else 0) + r.2)

/-! ## Button click mailbox (button.rs lines 16-24) -/

/-- Operations on the `BUTTON_CLICKS` channel: the producer's non-blocking
`try_send(())` (its `Err` is discarded) and the consumer's `receive()`. -/
inductive BtnOp
  | send
  | recv
deriving DecidableEq, Repr

/-- `BUTTON_CLICKS.try_send(())` on the capacity-1 channel: enqueue when
there is room, otherwise drop the event (`let _ = ...`). -/
def btnTrySend (q : List Unit) : List Unit :=
  if q.length < 1 then q ++ [()] else q

/-- `BUTTON_CLICKS.receive()`: pop the front element (a no-op here models a
receive that has not completed because the channel is empty). -/
def btnRecv (q : List Unit) : List Unit := q.drop 1

/-- Apply one mailbox operation. -/
def btnApply (q : List Unit) : BtnOp → List Unit
  | .send => btnTrySend q
  | .recv => btnRecv q

/-- State of the mailbox after a sequence of operations from the empty
initial channel. -/
def btnRun (ops : List BtnOp) : List Unit := ops.foldl btnApply []

/-! ## Outbound message queue (telegram.rs) -/

/-- Capacity of `MESSAGES_QUEUE` (telegram.rs line 36). -/
def tgCapacity : Nat := 8

/-- Capacity of the `heapless::String<32>` payload copy (telegram.rs
line 28), in bytes. -/
def msgCapacity : Nat := 32

/-- `MESSAGES_QUEUE.try_send(owned)`: enqueue at the back when below
capacity (FIFO), otherwise leave the queue unchanged; the Bool reports
acceptance. -/
def channelTrySend (q : List (List Nat)) (m : List Nat) : List (List Nat) × Bool :=
  if q.length < tgCapacity then (q ++ [m], true) else (q, false)

/-- `send_telegram_message(msg)` (telegram.rs lines 26-33): copy the payload
with `String::<32>::try_from(msg).unwrap()` — `none` models the panic of the
`unwrap` when the payload exceeds 32 bytes — then `try_send`; on a full
queue the message is dropped and an error is logged (the returned Bool). -/
def send_telegram_message (q : List (List Nat)) (msg : List Nat) :
    Option (List (List Nat) × Bool) :=
  if msg.length ≤ msgCapacity then
    let r := channelTrySend q msg
    some (r.1, !r.2)
  else
    none

/-- Enqueue a batch of messages with no consumer draining; returns the final
queue and the dropped-and-logged messages in order, or `none` if some call
panicked. -/
def sendAll : List (List Nat) → List (List Nat) → Option (List (List Nat) × List (List Nat))
  | q, [] => some (q, [])
  | q, m :: rest =>
      match send_telegram_message q m with
      | none => none
      | some (q2, logged) =>
          match sendAll q2 rest with
          | none => none
          | some (qf, ds) => some (qf, (if logged then [m] else []) ++ ds)

/-! ## Telegram delivery (telegram.rs lines 54-160) -/

/-- Whether a byte is a UTF-8 continuation byte. -/
def isUtf8Cont (b : Nat) : Bool := 0x80 ≤ b && b ≤ 0xBF

/-- `core::str::from_utf8` (telegram.rs line 126): decode a byte sequence as
standard UTF-8 (RFC 3629: no overlong encodings, no surrogates, code points
at most 0x10FFFF), or fail. -/
def utf8Decode : List Nat → Option (List Char)
  | [] => some []
  | b1 :: t1 =>
      if b1 ≤ 0x7F then
        (utf8Decode t1).map (fun cs => Char.ofNat b1 :: cs)
      else
        match t1 with
        | [] => none
        | b2 :: t2 =>
            if 0xC2 ≤ b1 && b1 ≤ 0xDF then
              if isUtf8Cont b2 then
                (utf8Decode t2).map
                  (fun cs => Char.ofNat ((b1 - 0xC0) * 0x40 + (b2 - 0x80)) :: cs)
              else none
            else
              match t2 with
              | [] => none
              | b3 :: t3 =>
                  if 0xE0 ≤ b1 && b1 ≤ 0xEF then
                    let okB2 :=
                      if b1 = 0xE0 then 0xA0 ≤ b2 && b2 ≤ 0xBF
                      else if b1 = 0xED then 0x80 ≤ b2 && b2 ≤ 0x9F
                      else isUtf8Cont b2
                    if okB2 && isUtf8Cont b3 then
                      (utf8Decode t3).map
                        (fun cs =>
                          Char.ofNat ((b1 - 0xE0) * 0x1000 + (b2 - 0x80) * 0x40 + (b3 - 0x80)) :: cs)
                    else none
                  else
                    match t3 with
                    | [] => none
                    | b4 :: t4 =>
                        if 0xF0 ≤ b1 && b1 ≤ 0xF4 then
                          let okB2 :=
                            if b1 = 0xF0 then 0x90 ≤ b2 && b2 ≤ 0xBF
                            else if b1 = 0xF4 then 0x80 ≤ b2 && b2 ≤ 0x8F
                            else isUtf8Cont b2
                          if okB2 && isUtf8Cont b3 && isUtf8Cont b4 then
                            (utf8Decode t4).map
                              (fun cs =>
                                Char.ofNat
                                  ((b1 - 0xF0) * 0x40000 + (b2 - 0x80) * 0x1000 +
                                    (b3 - 0x80) * 0x40 + (b4 - 0x80)) :: cs)
                          else none
                        else none

/-- `str::contains` (telegram.rs line 130): substring containment. -/
def hasSub (needle : List Char) : List Char → Bool
  | [] => needle.isEmpty
  | c :: rest => needle.isPrefixOf (c :: rest) || hasSub needle rest

/-- The positive-acknowledgement marker `r#""ok":true"#` of telegram.rs
line 130. -/
def okMarker : List Char := ("\"ok\":true").toList

/-- The error enum `TelegramSendMessageError` (telegram.rs lines 144-148);
the `reqwless::Error` payload of `RequestError` is irrelevant here. -/
inductive TelegramSendMessageError
  | InvalidArguments
  | RequestError
  | ResponseError
deriving DecidableEq, Repr

/-- Environment of one delivery attempt: whether `serde_json_core::to_slice`
succeeds (telegram.rs line 112), and the transport outcome — `none` when any
of `client.request`, `req.send` or `read_to_end` returns a `reqwless` error
(lines 116-125), `some bytes` for the raw response body. -/
structure TgEnv where
  serializeOk : Bool
  transport : Option (List Nat)
deriving DecidableEq, Repr

/-- `telegram_send_message` (telegram.rs lines 69-137): serialization errors
become `InvalidArguments`, transport errors become `RequestError` (both via
the `From` impls and `?`), a non-UTF-8 body or a body lacking the
`"ok":true` marker become `ResponseError`, otherwise `Ok(())`. -/
def telegram_send_message (env : TgEnv) : Except TelegramSendMessageError Unit :=
  if !env.serializeOk then .error .InvalidArguments
  else
    match env.transport with
    | none => .error .RequestError
    | some bytes =>
        match utf8Decode bytes with
        | none => .error .ResponseError
        | some text =>
            if hasSub okMarker text then .ok () else .error .ResponseError

/-- The per-message outcome declared by `task_telegram_sender` (telegram.rs
lines 54-64): `led_status.success()` on `Ok`, `led_status.failure()` on any
`Err`. -/
def taskTelegramSenderOutcome (env : TgEnv) : GuardEnding :=
  match telegram_send_message env with
  | .ok _ => .success
  | .error _ => .failure

/-! ## Connection supervisor (wifi.rs lines 100-152) -/

/-- Environment of one `task_keep_wifi_client_up` loop iteration: the values
the controller and radio report at each check point of that pass. -/
structure WifiEnv where
  staConnected : Bool
  isStarted : Bool
  setConfigOk : Bool
  startOk : Bool
  connectOk : Bool
deriving DecidableEq, Repr

/-- How one supervisor pass ends: `panicked` when an `unwrap` aborts the
task, `completed c` when the pass falls through to the next loop iteration
(`c` = whether `connect_async` succeeded). -/
inductive WifiIterResult
  | panicked
  | completed (connected : Bool)
deriving DecidableEq, Repr

/-- The LED report at the top of the pass (wifi.rs lines 103-108). -/
def wifiLedReport (env : WifiEnv) : LedState :=
  if env.staConnected then .PresenceBlink else .PatientBlink

/-- One iteration of `task_keep_wifi_client_up` (wifi.rs lines 101-151):
after the LED report and the optional wait-for-disconnect, a not-started
controller gets `set_config(..).unwrap()` then `start_async().await.unwrap()`
— either failure panics — and then `connect_async` is attempted; both its
outcomes fall through to the next loop iteration (a failure only adds a 5 s
sleep). -/
def wifiIterate (env : WifiEnv) : WifiIterResult :=
  if !env.isStarted then
    if !env.setConfigOk then .panicked
    else if !env.startOk then .panicked
    else .completed env.connectOk
  else .completed env.connectOk

/-- A sample well-acknowledged response body: the ASCII bytes of the marker
`"ok":true` itself. -/
def tgOkBytes : List Nat := [0x22, 0x6F, 0x6B, 0x22, 0x3A, 0x74, 0x72, 0x75, 0x65]

/-! ## Helper lemmas -/

theorem ledIterate_persistent (s : LedTaskState) (sig : Option LedState × Option LedState) :
    ((ledIterate s sig).1).persistent =
      if isPersistentLed s.current then s.current else s.persistent := by
  obtain ⟨c, p⟩ := s
  cases c <;> rfl

theorem ledRun_persistent_inv (sigs : List (Option LedState × Option LedState)) :
    ∀ s : LedTaskState, isPersistentLed s.persistent = true →
      isPersistentLed (ledRun s sigs).persistent = true := by
  induction sigs with
  | nil => intro s h; exact h
  | cons sig rest ih =>
      intro s h
      show isPersistentLed (ledRun (ledIterate s sig).1 rest).persistent = true
      refine ih _ ?_
      rw [ledIterate_persistent]
      split
      · next h2 => exact h2
      · exact h

theorem ledIterate_success_eq (p : LedState) (sig : Option LedState × Option LedState) :
    ledIterate ⟨LedState.Success, p⟩ sig =
      (⟨p, p⟩, holdPhases LedState.Success 3000 0 (holdReps (3000 + 0) 3000), []) := by
  simp [ledIterate, patternOf, isPersistentLed]

theorem ledIterate_failure_eq (p : LedState) (sig : Option LedState × Option LedState) :
    ledIterate ⟨LedState.Failure, p⟩ sig =
      (⟨p, p⟩, holdPhases LedState.Failure 30 70 (holdReps (30 + 70) 3000), []) := by
  simp [ledIterate, patternOf, isPersistentLed]

/-! ## Claim theorems -/

/-- C1: every outcome guard first sets the status to `Busy` (`RapidBlink`)
and then delivers exactly one terminal report over its whole lifetime:
`success()` delivers `Success`, `failure()` delivers `Failure`, and an
abandoned guard's destructor delivers `Failure`; no lifecycle delivers two or
zero terminal reports, and an abandoned guard never reports `Success`. -/
theorem c1_guard_exactly_one_terminal (e : GuardEnding) :
    guardTrace e = [LedState.RapidBlink, terminalOf e] ∧
    (guardTrace e).head? = some LedState.RapidBlink ∧
    (guardTrace e).countP isTerminalReport = 1 ∧
    (e = GuardEnding.abandoned → LedState.Success ∉ guardTrace e) := by
  cases e <;> exact ⟨rfl, rfl, by decide, by decide⟩

theorem c1_guard_exactly_one_terminal_w :
    (guardTrace GuardEnding.abandoned).countP isTerminalReport = 1 ∧
    LedState.Success ∉ guardTrace GuardEnding.abandoned :=
  ⟨(c1_guard_exactly_one_terminal GuardEnding.abandoned).2.2.1,
   (c1_guard_exactly_one_terminal GuardEnding.abandoned).2.2.2 rfl⟩

/-- C4: `persistent_state` is updated only on the persistent branch — the
persistent variants are exactly `PresenceBlink` and `PatientBlink`, an
iteration whose current status is non-persistent (`RapidBlink`,
`ViolentBlink`, `Success`, `Failure`) leaves `persistent_state` unchanged,
and from the initial state every reachable state has a persistent
`persistent_state`. -/
theorem c4_last_persistent_invariant :
    (∀ sigs : List (Option LedState × Option LedState),
       isPersistentLed (ledRun ledInit sigs).persistent = true) ∧
    (∀ (s : LedTaskState) (sig : Option LedState × Option LedState),
       isPersistentLed s.current = false →
         ((ledIterate s sig).1).persistent = s.persistent) ∧
    isPersistentLed LedState.PresenceBlink = true ∧
    isPersistentLed LedState.PatientBlink = true ∧
    isPersistentLed LedState.RapidBlink = false ∧
    isPersistentLed LedState.ViolentBlink = false ∧
    isPersistentLed LedState.Success = false ∧
    isPersistentLed LedState.Failure = false := by
  refine ⟨fun sigs => ledRun_persistent_inv sigs ledInit rfl, ?_, rfl, rfl, rfl, rfl, rfl, rfl⟩
  intro s sig h
  rw [ledIterate_persistent]
  simp [h]

theorem c4_last_persistent_invariant_w :
    isPersistentLed (ledRun ledInit [(some LedState.RapidBlink, none)]).persistent = true ∧
    ((ledIterate ⟨LedState.RapidBlink, LedState.PatientBlink⟩ (none, none)).1).persistent =
      LedState.PatientBlink :=
  ⟨c4_last_persistent_invariant.1 [(some LedState.RapidBlink, none)],
   c4_last_persistent_invariant.2.1 ⟨LedState.RapidBlink, LedState.PatientBlink⟩ (none, none) rfl⟩

/-- C2: an iteration entered with current status `Success` or `Failure`
blinks that status's pattern for the full 3-second hold (total rendered
duration at least 3000 ms, every phase drawn from the holding status's
pattern and never racing the signal), consumes no signal, and ends with
`current_state` unconditionally set to `persistent_state`; in particular the
run Connecting → Busy → Failure → (hold) ends back at `PatientBlink`. -/
theorem c2_hold_reverts_to_persistent (s : LedTaskState)
    (sig : Option LedState × Option LedState)
    (h : s.current = LedState.Success ∨ s.current = LedState.Failure) :
    (ledIterate s sig).2.2 = [] ∧
    ((ledIterate s sig).1).current = s.persistent ∧
    ((ledIterate s sig).1).persistent = s.persistent ∧
    3000 ≤ ((ledIterate s sig).2.1.map Phase.dur).sum ∧
    (∀ ph ∈ (ledIterate s sig).2.1, ph.src = s.current ∧ ph.cut = false) ∧
    ledRun ledInit
        [(some LedState.RapidBlink, none), (some LedState.Failure, none), (none, none)] =
      ledInit := by
  obtain ⟨c, p⟩ := s
  rcases h with h | h <;> cases h
  · rw [ledIterate_success_eq]
    refine ⟨rfl, rfl, rfl, ?_, ?_, by decide⟩
    · show 3000 ≤ ((holdPhases LedState.Success 3000 0 (holdReps (3000 + 0) 3000)).map
          Phase.dur).sum
      decide
    · show ∀ ph ∈ holdPhases LedState.Success 3000 0 (holdReps (3000 + 0) 3000),
        ph.src = LedState.Success ∧ ph.cut = false
      decide
  · rw [ledIterate_failure_eq]
    refine ⟨rfl, rfl, rfl, ?_, ?_, by decide⟩
    · show 3000 ≤ ((holdPhases LedState.Failure 30 70 (holdReps (30 + 70) 3000)).map
          Phase.dur).sum
      decide
    · show ∀ ph ∈ holdPhases LedState.Failure 30 70 (holdReps (30 + 70) 3000),
        ph.src = LedState.Failure ∧ ph.cut = false
      decide

theorem c2_hold_reverts_to_persistent_w :
    (ledIterate ⟨LedState.Success, LedState.PresenceBlink⟩
        (some LedState.RapidBlink, none)).2.2 = [] ∧
    ((ledIterate ⟨LedState.Success, LedState.PresenceBlink⟩
        (some LedState.RapidBlink, none)).1).current = LedState.PresenceBlink :=
  ⟨(c2_hold_reverts_to_persistent ⟨LedState.Success, LedState.PresenceBlink⟩
      (some LedState.RapidBlink, none) (Or.inl rfl)).1,
   (c2_hold_reverts_to_persistent ⟨LedState.Success, LedState.PresenceBlink⟩
      (some LedState.RapidBlink, none) (Or.inl rfl)).2.1⟩

/-- C3 counterexample: with current status `PresenceBlink` and a signal
(`RapidBlink`) resolving during the on-phase, the new status is adopted, yet
the iteration still renders the off-phase of the old `PresenceBlink` pattern
(3000 ms, uncut) after the abandonment — pattern selection does not restart
immediately, contradicting the claim. -/
theorem c3_counterexample :
    ((ledIterate ⟨LedState.PresenceBlink, LedState.PresenceBlink⟩
        (some LedState.RapidBlink, none)).1).current = LedState.RapidBlink ∧
    (ledIterate ⟨LedState.PresenceBlink, LedState.PresenceBlink⟩
        (some LedState.RapidBlink, none)).2.2 = [LedState.RapidBlink] ∧
    (ledIterate ⟨LedState.PresenceBlink, LedState.PresenceBlink⟩
        (some LedState.RapidBlink, none)).2.1 =
      [⟨true, 30, LedState.PresenceBlink, true⟩,
       ⟨false, 3000, LedState.PresenceBlink, false⟩] ∧
    ((ledIterate ⟨LedState.PresenceBlink, LedState.PresenceBlink⟩
        (some LedState.RapidBlink, none)).2.1.map Phase.src).getLast? =
      some LedState.PresenceBlink ∧
    LedState.PresenceBlink ≠ LedState.RapidBlink := by
  decide

/-- C3 amended: for a non-holding current status, each phase races its timer
against the signal and a winning signal abandons the remainder of that phase
and adopts the new status; but pattern selection restarts immediately only
when the signal resolves during the final (off) phase — when it resolves
during the on-phase, the off-phase of the old pattern is still rendered in
full before the next pattern selection, so the rendered pattern matches the
most recently set status only after at most one full further phase of the
old pattern. -/
theorem c3_amended_preemption (s : LedTaskState) (v : LedState)
    (h : (patternOf s.current).2.2.2 = none) :
    (((ledIterate s (some v, none)).1).current = v ∧
     (ledIterate s (some v, none)).2.1 =
       [⟨true, (patternOf s.current).1, s.current, true⟩,
        ⟨false, (patternOf s.current).2.1, s.current, false⟩] ∧
     (ledIterate s (some v, none)).2.2 = [v]) ∧
    (((ledIterate s (none, some v)).1).current = v ∧
     (ledIterate s (none, some v)).2.1 =
       [⟨true, (patternOf s.current).1, s.current, false⟩,
        ⟨false, (patternOf s.current).2.1, s.current, true⟩] ∧
     (ledIterate s (none, some v)).2.2 = [v]) := by
  obtain ⟨c, p⟩ := s
  cases c <;>
    first
      | exact ⟨⟨rfl, rfl, rfl⟩, ⟨rfl, rfl, rfl⟩⟩
      | exact absurd h (Option.some_ne_none _)

theorem c3_amended_preemption_w :
    ((ledIterate ⟨LedState.PresenceBlink, LedState.PresenceBlink⟩
        (some LedState.RapidBlink, none)).1).current = LedState.RapidBlink ∧
    ((ledIterate ⟨LedState.PresenceBlink, LedState.PresenceBlink⟩
        (none, some LedState.RapidBlink)).1).current = LedState.RapidBlink :=
  ⟨(c3_amended_preemption ⟨LedState.PresenceBlink, LedState.PresenceBlink⟩
      LedState.RapidBlink rfl).1.1,
   (c3_amended_preemption ⟨LedState.PresenceBlink, LedState.PresenceBlink⟩
      LedState.RapidBlink rfl).2.1⟩

/-- C5 counterexample: in a pass where the controller is not started and
applying the client configuration fails, the supervisor panics (the
`unwrap` aborts the task) instead of completing the pass — so the outer loop
does not continue and retry, contradicting the claim; likewise when
`start_async` fails. -/
theorem c5_counterexample :
    wifiIterate ⟨false, false, false, true, true⟩ = WifiIterResult.panicked ∧
    wifiIterate ⟨false, false, false, true, true⟩ ≠ WifiIterResult.completed true ∧
    wifiIterate ⟨false, false, false, true, true⟩ ≠ WifiIterResult.completed false ∧
    wifiIterate ⟨false, false, true, false, true⟩ = WifiIterResult.panicked := by
  decide

/-- C5 amended: a failure applying the wireless client configuration or
starting the controller makes that supervisor pass panic (`unwrap`),
aborting the task rather than surfacing a recoverable error; only when
configuration and start succeed (or the controller is already started) does
the pass complete, and then the outer infinite loop continues — so only
connect failures are retried on the next iteration. -/
theorem c5_amended_config_failure_panics (env : WifiEnv) :
    (env.isStarted = false → (env.setConfigOk = false ∨ env.startOk = false) →
       wifiIterate env = WifiIterResult.panicked) ∧
    (env.isStarted = false → env.setConfigOk = true → env.startOk = true →
       wifiIterate env = WifiIterResult.completed env.connectOk) ∧
    (env.isStarted = true → wifiIterate env = WifiIterResult.completed env.connectOk) := by
  obtain ⟨a, b, c, d, e⟩ := env
  cases a <;> cases b <;> cases c <;> cases d <;> cases e <;> decide

theorem c5_amended_config_failure_panics_w :
    wifiIterate ⟨true, false, true, false, true⟩ = WifiIterResult.panicked ∧
    wifiIterate ⟨false, true, true, true, false⟩ = WifiIterResult.completed false :=
  ⟨(c5_amended_config_failure_panics ⟨true, false, true, false, true⟩).1 rfl (Or.inr rfl),
   (c5_amended_config_failure_panics ⟨false, true, true, true, false⟩).2.2 rfl⟩

theorem debRun_append (l1 l2 : List Bool) : ∀ s : DebState,
    debRun s (l1 ++ l2) =
      ((debRun (debRun s l1).1 l2).1, (debRun s l1).2 + (debRun (debRun s l1).1 l2).2) := by
  induction l1 with
  | nil => intro s; simp [debRun]
  | cons x xs ih =>
      intro s
      simp [debRun, ih (debStep s x).1, Nat.add_assoc]

theorem debRun_armedTrue_trues (n : Nat) :
    debRun (DebState.armed true) (List.replicate n true) = (DebState.armed true, 0) := by
  induction n with
  | zero => rfl
  | succ k ih => simp [List.replicate_succ, debRun, debStep, ih]

theorem debRun_waitHigh_falses (n : Nat) :
    debRun DebState.waitHigh (List.replicate n false) = (DebState.waitHigh, 0) := by
  induction n with
  | zero => rfl
  | succ k ih => simp [List.replicate_succ, debRun, debStep, ih]

theorem debRun_waitHigh_trues_count (n : Nat) :
    (debRun DebState.waitHigh (List.replicate n true)).2 = 0 := by
  cases n with
  | zero => rfl
  | succ k => simp [List.replicate_succ, debRun, debStep, debRun_armedTrue_trues k]

theorem debRun_settling_falses_le (n : Nat) : ∀ k : Nat, n ≤ k →
    debRun (DebState.settling k) (List.replicate n false) = (DebState.settling (k - n), 0) := by
  induction n with
  | zero => intro k _; simp [debRun]
  | succ m ih =>
      intro k hk
      match k, hk with
      | k' + 1, _ =>
          simp [List.replicate_succ, debRun, debStep, ih k' (by omega), Nat.succ_sub_succ]

theorem debRun_settling_falses_gt (n : Nat) : ∀ k : Nat, k + 1 ≤ n →
    debRun (DebState.settling k) (List.replicate n false) = (DebState.waitHigh, 1) := by
  induction n with
  | zero => intro k hk; exact absurd hk (by omega)
  | succ m ih =>
      intro k hk
      cases k with
      | zero => simp [List.replicate_succ, debRun, debStep, debRun_waitHigh_falses m]
      | succ k' => simp [List.replicate_succ, debRun, debStep, ih k' (by omega)]

theorem debRun_settling_trues_count (n : Nat) : ∀ k : Nat,
    (debRun (DebState.settling k) (List.replicate n true)).2 = 0 := by
  induction n with
  | zero => intro k; rfl
  | succ m ih =>
      intro k
      cases k with
      | zero => simp [List.replicate_succ, debRun, debStep, debRun_armedTrue_trues m]
      | succ k' => simp [List.replicate_succ, debRun, debStep, ih k']

theorem debRun_armedTrue_press (m : Nat) :
    debRun (DebState.armed true) (List.replicate (21 + m) false) = (DebState.waitHigh, 1) := by
  rw [List.replicate_add]
  simp [debRun, debStep, settleMs, debRun_waitHigh_falses]

theorem debRun_armedTrue_bounce (b : Nat) (h1 : 1 ≤ b) (h2 : b ≤ 20) :
    ∃ k : Nat, debRun (DebState.armed true) (List.replicate b false) = (DebState.settling k, 0) := by
  obtain ⟨m, rfl⟩ : ∃ m, b = 1 + m := ⟨b - 1, by omega⟩
  refine ⟨19 - m, ?_⟩
  rw [List.replicate_add]
  simp [debRun, debStep, settleMs, debRun_settling_falses_le m 19 (by omega)]

theorem debRun_waitHigh_allFalse : ∀ inp : List Bool, (∀ x ∈ inp, x = false) →
    debRun DebState.waitHigh inp = (DebState.waitHigh, 0) := by
  intro inp
  induction inp with
  | nil => intro _; rfl
  | cons x xs ih =>
      intro h
      have hx : x = false := h x (by simp)
      subst hx
      simp [debRun, debStep, ih (fun y hy => h y (by simp [hy]))]

/-- C6: the debouncer emits at most one click event per press — after a
falling edge it waits the 20 ms settle interval and re-samples: a press still
asserted at the re-sample (longer than `settleMs` ticks) yields exactly one
event over the whole press-and-release trace, a sub-threshold bounce
(released by the re-sample) yields zero events, and after emitting, the task
waits for the released level, so continued assertion (release chatter at the
low level) produces no further events. -/
theorem c6_debounce_one_event_per_press :
    (∀ a b c : Nat, settleMs + 1 ≤ b →
       (debRun (DebState.armed true)
         (List.replicate a true ++ List.replicate b false ++ List.replicate c true)).2 = 1) ∧
    (∀ a b c : Nat, 1 ≤ b → b ≤ settleMs →
       (debRun (DebState.armed true)
         (List.replicate a true ++ List.replicate b false ++ List.replicate c true)).2 = 0) ∧
    (∀ inp : List Bool, (∀ x ∈ inp, x = false) →
       (debRun DebState.waitHigh inp).2 = 0) := by
  refine ⟨?_, ?_, ?_⟩
  · intro a b c h
    obtain ⟨m, rfl⟩ : ∃ m, b = 21 + m := ⟨b - 21, by simp [settleMs] at h; omega⟩
    rw [List.append_assoc, debRun_append, debRun_armedTrue_trues]
    rw [debRun_append, debRun_armedTrue_press m]
    simp [debRun_waitHigh_trues_count c]
  · intro a b c h1 h2
    have h2' : b ≤ 20 := by simpa [settleMs] using h2
    obtain ⟨k, hk⟩ := debRun_armedTrue_bounce b h1 h2'
    rw [List.append_assoc, debRun_append, debRun_armedTrue_trues]
    rw [debRun_append, hk]
    simp [debRun_settling_trues_count c k]
  · intro inp h
    rw [debRun_waitHigh_allFalse inp h]

theorem c6_debounce_one_event_per_press_w :
    (debRun (DebState.armed true)
      (List.replicate 1 true ++ List.replicate 25 false ++ List.replicate 2 true)).2 = 1 ∧
    (debRun (DebState.armed true)
      (List.replicate 1 true ++ List.replicate 5 false ++ List.replicate 2 true)).2 = 0 ∧
    (debRun DebState.waitHigh [false, false, false]).2 = 0 :=
  ⟨c6_debounce_one_event_per_press.1 1 25 2 (by decide),
   c6_debounce_one_event_per_press.2.1 1 5 2 (by decide) (by decide),
   c6_debounce_one_event_per_press.2.2 [false, false, false] (by decide)⟩

theorem btnTrySend_len {q : List Unit} (h : q.length ≤ 1) : (btnTrySend q).length ≤ 1 := by
  unfold btnTrySend
  split
  · next h2 => simp only [List.length_append, List.length_singleton]; omega
  · exact h

theorem btnApply_len {q : List Unit} (h : q.length ≤ 1) (op : BtnOp) :
    (btnApply q op).length ≤ 1 := by
  cases op with
  | send => exact btnTrySend_len h
  | recv => simp [btnApply, btnRecv]; omega

theorem btnFoldl_len (ops : List BtnOp) : ∀ q : List Unit, q.length ≤ 1 →
    (List.foldl btnApply q ops).length ≤ 1 := by
  induction ops with
  | nil => intro q h; exact h
  | cons op rest ih => intro q h; exact ih (btnApply q op) (btnApply_len h op)

/-- C7: the click-event mailbox holds at most one pending event in every
state reachable from the empty channel by any sequence of non-blocking
producer enqueues and consumer receives; in particular two further
qualifying presses (two `try_send`s) from any reachable state still leave at
most one observable event. -/
theorem c7_mailbox_at_most_one_pending (ops : List BtnOp) :
    (btnRun ops).length ≤ 1 ∧
    (btnTrySend (btnTrySend (btnRun ops))).length ≤ 1 := by
  have h : (btnRun ops).length ≤ 1 := btnFoldl_len ops [] (by simp)
  exact ⟨h, btnTrySend_len (btnTrySend_len h)⟩

theorem take_len_append {α : Type} (q l : List α) : (q ++ l).take q.length = q := by
  induction q with
  | nil => simp
  | cons x xs ih => simp [ih]

theorem drop_len_append {α : Type} (q l : List α) : (q ++ l).drop q.length = l := by
  induction q with
  | nil => simp
  | cons x xs ih => simp [ih]

theorem sendAll_spec (msgs : List (List Nat)) : ∀ q : List (List Nat), q.length ≤ 8 →
    (∀ m ∈ msgs, m.length ≤ 32) →
    sendAll q msgs = some ((q ++ msgs).take 8, (q ++ msgs).drop 8) := by
  induction msgs with
  | nil =>
      intro q hq _
      simp [sendAll, List.take_of_length_le hq, List.drop_of_length_le hq]
  | cons m rest ih =>
      intro q hq hm
      have hm0 : m.length ≤ 32 := hm m (by simp)
      by_cases hql : q.length < 8
      · have hsend : send_telegram_message q m = some (q ++ [m], false) := by
          simp [send_telegram_message, channelTrySend, tgCapacity, msgCapacity, hm0, hql]
        have hrec := ih (q ++ [m]) (by simp; omega) (fun x hx => hm x (by simp [hx]))
        simp only [sendAll, hsend, hrec]
        simp
      · have hq8 : q.length = 8 := by omega
        have hsend : send_telegram_message q m = some (q, true) := by
          simp [send_telegram_message, channelTrySend, tgCapacity, msgCapacity, hm0, hql]
        have hrec := ih q hq (fun x hx => hm x (by simp [hx]))
        simp only [sendAll, hsend, hrec]
        have t1 : (q ++ (m :: rest)).take 8 = q := by
          rw [← hq8]; exact take_len_append q (m :: rest)
        have t2 : (q ++ rest).take 8 = q := by
          rw [← hq8]; exact take_len_append q rest
        have t3 : (q ++ (m :: rest)).drop 8 = m :: rest := by
          rw [← hq8]; exact drop_len_append q (m :: rest)
        have t4 : (q ++ rest).drop 8 = rest := by
          rw [← hq8]; exact drop_len_append q rest
        simp [t1, t2, t3, t4]

/-- C8: with no consumer draining, a batch of (at most 32-byte) messages
enqueued through `send_telegram_message` ends with exactly the first 8
messages accepted into the capacity-8 mailbox in FIFO order, and every
subsequent message dropped with a logged error; no call blocks (the model is
a total non-blocking function of the queue state). -/
theorem c8_mailbox_first_eight_fifo (msgs : List (List Nat))
    (h : ∀ m ∈ msgs, m.length ≤ 32) :
    sendAll [] msgs = some (msgs.take 8, msgs.drop 8) := by
  have := sendAll_spec msgs [] (by simp) h
  simpa using this

theorem c8_mailbox_first_eight_fifo_w :
    sendAll [] [[0], [1], [2], [3], [4], [5], [6], [7], [8]] =
      some ([[0], [1], [2], [3], [4], [5], [6], [7]], [[8]]) :=
  (c8_mailbox_first_eight_fifo [[0], [1], [2], [3], [4], [5], [6], [7], [8]]
    (by decide)).trans (by decide)

/-- C10: `send_telegram_message` is total only for payloads of at most 32
bytes — the `String::<32>::try_from(msg).unwrap()` copy panics (modelled as
`none`) for every longer payload, before any enqueue or drop can happen;
under the precondition `msg.length ≤ 32` the panic branch is unreachable and
the call always completes. -/
theorem c10_payload_longer_than_32_panics (q : List (List Nat)) (msg : List Nat) :
    (msgCapacity < msg.length → send_telegram_message q msg = none) ∧
    (msg.length ≤ msgCapacity → (send_telegram_message q msg).isSome = true) := by
  constructor
  · intro h
    simp only [send_telegram_message]
    rw [if_neg (by omega)]
  · intro h
    simp [send_telegram_message, h]

theorem c10_payload_longer_than_32_panics_w :
    send_telegram_message [] (List.replicate 33 0) = none ∧
    (send_telegram_message [] (List.replicate 32 0)).isSome = true :=
  ⟨(c10_payload_longer_than_32_panics [] (List.replicate 33 0)).1 (by decide),
   (c10_payload_longer_than_32_panics [] (List.replicate 32 0)).2 (by decide)⟩

/-- C9: a delivery attempt returns `Ok` exactly when the HTTP exchange
completes with a UTF-8 body containing the positive-acknowledgement marker
`"ok":true`; the sender worker declares success exactly on `Ok` and failure
on every `Err`; and the error cases classify as `InvalidArguments` for a
serialization failure, `RequestError` for any transport failure, and
`ResponseError` for a non-UTF-8 body or a body lacking the marker. -/
theorem c9_success_iff_ok_marker (env : TgEnv) :
    (telegram_send_message env = Except.ok () ↔
      env.serializeOk = true ∧ ∃ bytes text, env.transport = some bytes ∧
        utf8Decode bytes = some text ∧ hasSub okMarker text = true) ∧
    (taskTelegramSenderOutcome env = GuardEnding.success ↔
      telegram_send_message env = Except.ok ()) ∧
    (taskTelegramSenderOutcome env = GuardEnding.failure ↔
      ∃ e, telegram_send_message env = Except.error e) ∧
    (env.serializeOk = false →
      telegram_send_message env = Except.error TelegramSendMessageError.InvalidArguments) ∧
    (env.serializeOk = true → env.transport = none →
      telegram_send_message env = Except.error TelegramSendMessageError.RequestError) ∧
    (∀ bytes, env.serializeOk = true → env.transport = some bytes → utf8Decode bytes = none →
      telegram_send_message env = Except.error TelegramSendMessageError.ResponseError) ∧
    (∀ bytes text, env.serializeOk = true → env.transport = some bytes →
      utf8Decode bytes = some text → hasSub okMarker text = false →
      telegram_send_message env = Except.error TelegramSendMessageError.ResponseError) := by
  obtain ⟨sOk, tr⟩ := env
  cases sOk
  · simp [telegram_send_message, taskTelegramSenderOutcome]
  · cases tr with
    | none => simp [telegram_send_message, taskTelegramSenderOutcome]
    | some bytes =>
        cases hdec : utf8Decode bytes with
        | none => simp [telegram_send_message, taskTelegramSenderOutcome, hdec]
        | some text =>
            cases hok : hasSub okMarker text
            · simp [telegram_send_message, taskTelegramSenderOutcome, hdec, hok]
            · simp [telegram_send_message, taskTelegramSenderOutcome, hdec, hok]
              intro bytes1 text1 hb hd
              subst hb
              rw [hdec] at hd
              injection hd with h
              subst h
              exact hok

theorem c9_success_iff_ok_marker_w :
    telegram_send_message ⟨true, some tgOkBytes⟩ = Except.ok () ∧
    telegram_send_message ⟨false, none⟩ =
      Except.error TelegramSendMessageError.InvalidArguments ∧
    taskTelegramSenderOutcome ⟨true, none⟩ = GuardEnding.failure :=
  ⟨(c9_success_iff_ok_marker ⟨true, some tgOkBytes⟩).1.mpr
      ⟨rfl, tgOkBytes, okMarker, rfl, by decide, by decide⟩,
   (c9_success_iff_ok_marker ⟨false, none⟩).2.2.2.1 rfl,
   (c9_success_iff_ok_marker ⟨true, none⟩).2.2.1.mpr
      ⟨TelegramSendMessageError.RequestError,
       (c9_success_iff_ok_marker ⟨true, none⟩).2.2.2.2.1 rfl rfl⟩⟩
